import Mathlib

/-!
Shallow embedding of the `tlsf` Go package (a Two-Level Segregated Fit
memory allocator) and proofs about its specification.

The backing byte region is modelled as a total map from 8-byte-aligned
absolute addresses to 64-bit words (`Mem`); every field of the Go structs
`BlockHeader` / `FreeBlockHeader` is one 8-byte word.  Pointers are
modelled as integer addresses, with `0` playing the role of `nil`; the
base address of the region (`&bytes[0]`) is the positive constant
`headBase`, so that no real block address collides with `nil`.

Go `int64` values are modelled as `Int`; the bitwise operations and
shifts are computed exactly as two's-complement 64-bit operations
(`i64and`, `i64or`, `i64not`, `goShl`, `goShr`).  Additions and
subtractions use plain `Int` arithmetic: every theorem below only
involves values far inside the `int64` range, where the two agree.
Go `uint32` values (the bitmaps, the inputs of `msb`/`lsb`) are modelled
as `Nat` reduced mod `2^32`.

Operations that would make the Go program panic — indexing
`slBitmap`/`matrix` out of range, or a shift by a negative amount — are
modelled by `Option`: `none` is a runtime fault, distinct from the
regular error value `ErrBlockNotFound`.
-/

namespace TlsfGo

/-! ### 64-bit two's-complement primitives -/

/-- `2^64`, the modulus of `uint64` / `int64` two's-complement arithmetic. -/
def U64 : Nat := 2 ^ 64

/-- `2^32`, the modulus of `uint32` arithmetic. -/
def U32 : Nat := 2 ^ 32

/-- The `uint64` bit pattern of an `int64` value. -/
def toU64 (x : Int) : Nat := (x % (U64 : Int)).toNat

/-- Read a `uint64` bit pattern back as a signed `int64` value. -/
def ofU64 (u : Nat) : Int := if u < 2 ^ 63 then (u : Int) else (u : Int) - (U64 : Int)

/-- `int64` bitwise AND (Go `&`). -/
def i64and (x y : Int) : Int := ofU64 (toU64 x &&& toU64 y)

/-- `int64` bitwise OR (Go `|`). -/
def i64or (x y : Int) : Int := ofU64 (toU64 x ||| toU64 y)

/-- `int64` bitwise complement (Go unary `^`). -/
def i64not (x : Int) : Int := ofU64 ((U64 - 1) ^^^ toU64 x)

/-- Go `x << s` on `int64`: shifting by a negative amount is a runtime
panic; counts `≥ 64` shift every bit out. -/
def goShl (x s : Int) : Option Int :=
  if s < 0 then none else some (ofU64 ((toU64 x <<< s.toNat) % U64))

/-- Go `x >> s` on `int64` (arithmetic shift): shifting by a negative
amount is a runtime panic. -/
def goShr (x s : Int) : Option Int :=
  if s < 0 then none else some (Int.shiftRight x s.toNat)

/-- Go `uint32(x)` conversion of an `int64` value. -/
def toU32 (x : Int) : Nat := (x % (U32 : Int)).toNat

/-! ### Constants (`tlsf.go` / the unnamed constants file) -/

def MaxFLI : Int := 30
def MaxLog2SLI : Int := 5
def MaxSLI : Int := 1 <<< 5
def FLIOffset : Int := 6
def RealFLI : Int := MaxFLI - FLIOffset

def FreeBlock : Int := 0x1
def UsedBlock : Int := 0x0
def PreviousBlockFree : Int := 0x1 <<< 1
def PreviousBlockUsed : Int := 0x0 <<< 1

def PtrMask : Int := 7
def BlockSize : Int := 0xFFFFFFFF - PtrMask
def BlockAlign : Int := 16
def MemAlign : Int := BlockAlign - 1
def BlockHeaderSize : Int := 16
def MinBlockSize : Int := 16
def SmallBlockSize : Int := 128

/-- The 256-entry most-significant-bit lookup table from the source. -/
def table : List Int :=
  [-1, 0, 1, 1, 2, 2, 2, 2, 3, 3, 3, 3, 3, 3, 3, 3, 4, 4, 4, 4, 4, 4, 4, 4, 4,
   4, 4, 4, 4, 4, 4, 4,
   5, 5, 5, 5, 5, 5, 5, 5, 5, 5, 5, 5, 5, 5, 5, 5, 5, 5, 5, 5, 5, 5, 5, 5, 5,
   5, 5, 5, 5, 5, 5, 5,
   6, 6, 6, 6, 6, 6, 6, 6, 6, 6, 6, 6, 6, 6, 6, 6, 6, 6, 6, 6, 6, 6, 6, 6, 6,
   6, 6, 6, 6, 6, 6, 6,
   6, 6, 6, 6, 6, 6, 6, 6, 6, 6, 6, 6, 6, 6, 6, 6, 6, 6, 6, 6, 6, 6, 6, 6, 6,
   6, 6, 6, 6, 6, 6, 6,
   7, 7, 7, 7, 7, 7, 7, 7, 7, 7, 7, 7, 7, 7, 7, 7, 7, 7, 7, 7, 7, 7, 7, 7, 7,
   7, 7, 7, 7, 7, 7, 7,
   7, 7, 7, 7, 7, 7, 7, 7, 7, 7, 7, 7, 7, 7, 7, 7, 7, 7, 7, 7, 7, 7, 7, 7, 7,
   7, 7, 7, 7, 7, 7, 7,
   7, 7, 7, 7, 7, 7, 7, 7, 7, 7, 7, 7, 7, 7, 7, 7, 7, 7, 7, 7, 7, 7, 7, 7, 7,
   7, 7, 7, 7, 7, 7, 7,
   7, 7, 7, 7, 7, 7, 7, 7, 7, 7, 7, 7, 7, 7, 7, 7, 7, 7, 7, 7, 7, 7, 7, 7, 7,
   7, 7, 7, 7, 7, 7, 7]

/-! ### Bit primitives (`msb`, `lsb`, `setBit`, `clearBit`, rounding) -/

/-- `msb` from the source: index of the most significant set bit of the
low 32 bits (`-1` on zero), via the lookup table. -/
def msb (n : Int) : Int :=
  let x : Nat := toU32 n
  let a : Nat :=
    if x ≤ 0xffff then (if x ≤ 0xff then 0 else 8)
    else (if x ≤ 0xffffff then 16 else 24)
  table.getD (x >>> a) 0 + (a : Int)

/-- `lsb` from the source: index of the least significant set bit of the
low 32 bits (`-1` on zero), via `x & -x` and the same table. -/
def lsb (n : Int) : Int :=
  let x0 : Nat := toU32 n
  let x : Nat := x0 &&& ((U32 - x0) % U32)
  let a : Nat :=
    if x ≤ 0xffff then (if x ≤ 0xff then 0 else 8)
    else (if x ≤ 0xffffff then 16 else 24)
  table.getD (x >>> a) 0 + (a : Int)

/-- `setBit`: set bit `nr & 0x1f` of a `uint32` word. -/
def setBit (nr : Int) (addr : Nat) : Nat :=
  addr ||| ((1 : Nat) <<< (i64and nr 0x1f).toNat)

/-- `clearBit`: clear bit `nr & 0x1f` of a `uint32` word (Go `&^`). -/
def clearBit (nr : Int) (addr : Nat) : Nat :=
  addr &&& ((U32 - 1) ^^^ ((1 : Nat) <<< (i64and nr 0x1f).toNat))

/-- `roundUp`: round up to the next multiple of 16. -/
def roundUp (size : Int) : Int := i64and (size + MemAlign) (i64not MemAlign)

/-- `roundDown`: round down to a multiple of 16. -/
def roundDown (size : Int) : Int := i64and size (i64not MemAlign)

/-! ### Size-class mapping -/

/-- `determineLevels`: the exact `(fl, sl)` class of a block of the given
size.  `none` models the runtime panic on a negative shift amount. -/
def determineLevels (size : Int) : Option (Int × Int) :=
  if size < SmallBlockSize then
    some (0, Int.tdiv size (Int.tdiv SmallBlockSize MaxSLI))
  else do
    let fl := msb size
    let sr ← goShr size (fl - MaxLog2SLI)
    some (fl - FLIOffset, sr - MaxSLI)

/-- `selectLevelsAndSize`: round a request up to its class boundary and
return the rounded size together with the search class `(fl, sl)`. -/
def selectLevelsAndSize (size : Int) : Option (Int × Int × Int) :=
  if size < SmallBlockSize then
    some (size, 0, Int.tdiv size (Int.tdiv SmallBlockSize MaxSLI))
  else do
    let t1 ← goShl 1 (msb size - MaxLog2SLI)
    let t := t1 - 1
    let size2 := size + t
    let fl := msb size2
    let sr ← goShr size2 (fl - MaxLog2SLI)
    let sl := sr - MaxSLI
    some (i64and size2 (i64not t), fl - FLIOffset, sl)

/-! ### Memory and allocator state

Memory is a total map from absolute addresses to 64-bit words.  A
`BlockHeader` at address `b` occupies words `b` (`prevHeader`) and
`b + 8` (`blockSize`); a `FreeBlockHeader` additionally occupies words
`b + 16` (`prev`) and `b + 24` (`next`), exactly like the Go structs on
a 64-bit host.  The arena bytes are zero-initialised, as Go's
`arena.MakeSlice` guarantees. -/

def Mem : Type := Int → Int

/-- Write one 64-bit word. -/
def writeMem (m : Mem) (a v : Int) : Mem := fun x => if x = a then v else m x

/-- `b.prevHeader` (a pointer, `0` = `nil`). -/
def hdrPrev (m : Mem) (b : Int) : Int := m b

/-- `b.blockSize`, the raw size-and-status word. -/
def hdrStatus (m : Mem) (b : Int) : Int := m (b + 8)

/-- `b.prev` of a `FreeBlockHeader`. -/
def fbPrev (m : Mem) (b : Int) : Int := m (b + 16)

/-- `b.next` of a `FreeBlockHeader`. -/
def fbNext (m : Mem) (b : Int) : Int := m (b + 24)

/-- `b.getBlockSize()`: the size bits of the status word. -/
def getBlockSize (m : Mem) (b : Int) : Int := i64and (hdrStatus m b) BlockSize

/-- `b.isFree()`. -/
def isFree (m : Mem) (b : Int) : Bool := i64and (hdrStatus m b) FreeBlock == FreeBlock

/-- `b.isPreviousBlockFree()`. -/
def isPrevFree (m : Mem) (b : Int) : Bool :=
  i64and (hdrStatus m b) PreviousBlockFree == PreviousBlockFree

/-- The state of a `TLSFArena` value: the two bitmap levels, the free-list
matrix (head pointers, `0` = `nil`), the backing memory and the used-size
accumulator.  `head` is the fixed base address `headBase`. -/
structure TLSFArena where
  flBitmap : Nat
  slBitmap : Int → Nat
  matrix : Int → Int → Int
  mem : Mem
  usedSize : Int

/-- Base address of the backing byte region (any positive 16-aligned
value; nothing in the code depends on it). -/
def headBase : Int := 16

/-- Read `t.slBitmap[fl]`; `none` models the index-out-of-range panic. -/
def getSlBitmap (t : TLSFArena) (fl : Int) : Option Nat :=
  if 0 ≤ fl ∧ fl < RealFLI then some (t.slBitmap fl) else none

/-- Write `t.slBitmap[fl]`; `none` models the index-out-of-range panic. -/
def setSlBitmap (t : TLSFArena) (fl : Int) (v : Nat) : Option TLSFArena :=
  if 0 ≤ fl ∧ fl < RealFLI then
    some { t with slBitmap := fun i => if i = fl then v else t.slBitmap i }
  else none

/-- Read `t.matrix[fl][sl]`; `none` models the index-out-of-range panic. -/
def getMatrix (t : TLSFArena) (fl sl : Int) : Option Int :=
  if 0 ≤ fl ∧ fl < RealFLI ∧ 0 ≤ sl ∧ sl < MaxSLI then some (t.matrix fl sl) else none

/-- Write `t.matrix[fl][sl]`; `none` models the index-out-of-range panic. -/
def setMatrix (t : TLSFArena) (fl sl : Int) (v : Int) : Option TLSFArena :=
  if 0 ≤ fl ∧ fl < RealFLI ∧ 0 ≤ sl ∧ sl < MaxSLI then
    some { t with matrix := fun i j => if i = fl ∧ j = sl then v else t.matrix i j }
  else none

/-! ### Free-list matrix operations -/

/-- `insertBlock` (`tlsf.go:296-306`), statement by statement:
`b.prev = nil; b.prev = t.matrix[fl][sl];
if t.matrix[fl][sl] != nil { t.matrix[fl][sl].prev = b };
t.matrix[fl][sl] = b; setBit(sl, &t.slBitmap[fl]); setBit(fl, &t.flBitmap)`. -/
def insertBlock (t : TLSFArena) (b fl sl : Int) : Option TLSFArena := do
  let m1 := writeMem t.mem (b + 16) 0
  let hd ← getMatrix t fl sl
  let m2 := writeMem m1 (b + 16) hd
  let m3 := if hd ≠ 0 then writeMem m2 (hd + 16) b else m2
  let t1 ← setMatrix { t with mem := m3 } fl sl b
  let slb ← getSlBitmap t1 fl
  let t2 ← setSlBitmap t1 fl (setBit sl slb)
  some { t2 with flBitmap := setBit fl t2.flBitmap }

/-- `extractBlockHdr` (`tlsf.go:281-293`): remove the head of
`matrix[fl][sl]`, clearing the second-level bit when the list becomes
empty and the first-level bit when the second-level word becomes zero. -/
def extractBlockHdr (t : TLSFArena) (b fl sl : Int) : Option TLSFArena := do
  let t1 ← setMatrix t fl sl (fbNext t.mem b)
  let hd ← getMatrix t1 fl sl
  let t2 ←
    if hd ≠ 0 then
      some { t1 with mem := writeMem t1.mem (hd + 16) 0 }
    else do
      let slb ← getSlBitmap t1 fl
      let t' ← setSlBitmap t1 fl (clearBit sl slb)
      let slb2 ← getSlBitmap t' fl
      if slb2 = 0 then some { t' with flBitmap := clearBit fl t'.flBitmap } else some t'
  some { t2 with mem := writeMem (writeMem t2.mem (b + 16) 0) (b + 24) 0 }

/-- `extractBlock` (`tlsf.go:309-327`): splice `b` out of its list;
the source clears the second-level bit only when the new head is
non-`nil`, and the first-level bit only when the second-level word is
non-zero (transcribed as written). -/
def extractBlock (t : TLSFArena) (b fl sl : Int) : Option TLSFArena := do
  let m1 := if fbNext t.mem b ≠ 0 then writeMem t.mem (fbNext t.mem b + 16) (fbPrev t.mem b)
            else t.mem
  let m2 := if fbPrev m1 b ≠ 0 then writeMem m1 (fbPrev m1 b + 24) (fbNext m1 b)
            else m1
  let t1 : TLSFArena := { t with mem := m2 }
  let hd ← getMatrix t1 fl sl
  let t2 ←
    if hd = b then do
      let t' ← setMatrix t1 fl sl (fbNext t1.mem b)
      let hd2 ← getMatrix t' fl sl
      if hd2 ≠ 0 then do
        let slb ← getSlBitmap t' fl
        let t'' ← setSlBitmap t' fl (clearBit sl slb)
        let slb2 ← getSlBitmap t'' fl
        if slb2 ≠ 0 then some { t'' with flBitmap := clearBit fl t''.flBitmap }
        else some t''
      else some t'
    else some t1
  some { t2 with mem := writeMem (writeMem t2.mem (b + 16) 0) (b + 24) 0 }

/-- `findSuitableBlock` (unnamed source file, lines 166-186). Returns the
found block (`0` = `nil`) together with the final values of the in-out
parameters `fl`, `sl`. -/
def findSuitableBlock (t : TLSFArena) (fl sl : Int) : Option (Int × Int × Int) := do
  let slb ← getSlBitmap t fl
  let sh ← goShl (i64not 0) sl
  let tmp := i64and (slb : Int) sh
  if tmp ≠ 0 then
    let sl2 := lsb tmp
    let b ← getMatrix t fl sl2
    some (b, fl, sl2)
  else do
    let sh2 ← goShl (i64not 0) (fl + 1)
    let fl2 := lsb (i64and (t.flBitmap : Int) sh2)
    if fl2 > 0 then do
      let slb2 ← getSlBitmap t fl2
      let sl2 := lsb (slb2 : Int)
      let b ← getMatrix t fl2 sl2
      some (b, fl2, sl2)
    else
      some (0, fl2, sl)

/-! ### Allocate, Free, NewArena -/

/-- Result of `Allocate`: a payload pointer, or `ErrBlockNotFound`. -/
inductive AllocResult where
  | ok (ptr : Int)
  | errBlockNotFound
  deriving DecidableEq, Repr

/-- `Allocate` (`tlsf.go:172-220`).  `none` models a runtime panic. -/
def Allocate (t : TLSFArena) (size0 : Int) : Option (TLSFArena × AllocResult) := do
  let size1 := if size0 < MinBlockSize then MinBlockSize else roundUp size0
  let (size, fl, sl) ← selectLevelsAndSize size1
  let (b, fl2, sl2) ← findSuitableBlock t fl sl
  if b = 0 then
    some (t, AllocResult.errBlockNotFound)
  else do
    let t1 ← extractBlockHdr t b fl2 sl2
    let nb := b + BlockHeaderSize + getBlockSize t1.mem b
    let tmpSize := getBlockSize t1.mem b - size
    if tmpSize ≥ BlockHeaderSize then do
      -- divide the block
      let tmpSize2 := tmpSize - BlockHeaderSize
      let b2 := b + BlockHeaderSize + size
      let mA := writeMem t1.mem (b2 + 8) tmpSize2
      let mB := writeMem mA (b2 + 8) (i64or (mA (b2 + 8)) (i64or PreviousBlockUsed FreeBlock))
      let mC := writeMem mB nb b2
      let t2 : TLSFArena := { t1 with mem := mC }
      let (fl3, sl3) ← determineLevels tmpSize2
      let t3 ← insertBlock t2 b2 fl3 sl3
      let mD := writeMem t3.mem (b + 8) (i64or size (i64and (t3.mem (b + 8)) 0x2))
      let t4 : TLSFArena := { t3 with mem := mD }
      let t5 : TLSFArena :=
        { t4 with usedSize := t4.usedSize + (getBlockSize t4.mem b + BlockHeaderSize) }
      some (t5, AllocResult.ok (b + BlockHeaderSize))
    else do
      -- no need to divide the block
      let mA := writeMem t1.mem (nb + 8) (i64and (t1.mem (nb + 8)) (i64not PreviousBlockFree))
      let mB := writeMem mA (b + 8) (i64and (mA (b + 8)) (i64not FreeBlock))
      let t2 : TLSFArena := { t1 with mem := mB }
      let t3 : TLSFArena :=
        { t2 with usedSize := t2.usedSize + (getBlockSize t2.mem b + BlockHeaderSize) }
      some (t3, AllocResult.ok (b + BlockHeaderSize))

/-- `Free` (`tlsf.go:228-255`).  Note that the source computes the
"next physical block" as `unsafe.Add(unsafe.Pointer(b), b.getBlockSize())`,
i.e. `b + size` (without the header size), and never updates the
successor's `prevHeader`/`PREV_FREE` after coalescing; this is
transcribed exactly as written. -/
def Free (t : TLSFArena) (ptr : Int) : Option TLSFArena := do
  let b := ptr - BlockHeaderSize
  let m1 := writeMem t.mem (b + 8) (i64or (t.mem (b + 8)) FreeBlock)
  let t1 : TLSFArena := { t with mem := m1 }
  let t2 : TLSFArena :=
    { t1 with usedSize := t1.usedSize - (getBlockSize t1.mem b + BlockHeaderSize) }
  let m2 := writeMem t2.mem (b + 16) 0
  let m3 := writeMem m2 (b + 24) 0
  let t3 : TLSFArena := { t2 with mem := m3 }
  let nb := b + getBlockSize t3.mem b
  let t4 ←
    if isFree t3.mem nb then do
      let (fl, sl) ← determineLevels (getBlockSize t3.mem nb)
      let t' ← extractBlock t3 nb fl sl
      some { t' with
             mem := writeMem t'.mem (b + 8)
               (t'.mem (b + 8) + (getBlockSize t'.mem nb + BlockHeaderSize)) }
    else some t3
  let bt ←
    if isPrevFree t4.mem nb then do
      let pfb := hdrPrev t4.mem nb
      let (fl, sl) ← determineLevels (getBlockSize t4.mem pfb)
      let t' ← extractBlock t4 pfb fl sl
      let t'' : TLSFArena :=
        { t' with
          mem := writeMem t'.mem (pfb + 8)
            (t'.mem (pfb + 8) + (getBlockSize t'.mem b + BlockHeaderSize)) }
      some (t'', pfb)
    else some (t4, b)
  let (t5, bf) := bt
  let (fl, sl) ← determineLevels (getBlockSize t5.mem bf)
  insertBlock t5 bf fl sl

/-- `NewArena` (`tlsf.go:134-161`): zero-filled region, initial free
block at `headBase`, sentinel header after it, then `Free` threads the
initial block into the matrix and `usedSize` is set to the header
overhead. -/
def NewArena (allocationBytes : Int) : Option TLSFArena := do
  let b := headBase
  let m0 : Mem := fun _ => 0
  let m1 := writeMem m0 (b + 8) (roundDown (allocationBytes - 2 * BlockHeaderSize))
  let m2 := writeMem m1 (b + 8) (i64or (m1 (b + 8)) (i64or PreviousBlockUsed FreeBlock))
  let lb := b + BlockHeaderSize + i64and (m2 (b + 8)) BlockSize
  let m3 := writeMem m2 (lb + 8) (i64or (m2 (lb + 8)) (i64or PreviousBlockFree UsedBlock))
  let m4 := writeMem m3 lb b
  let t0 : TLSFArena :=
    { flBitmap := 0, slBitmap := fun _ => 0, matrix := fun _ _ => 0, mem := m4, usedSize := 0 }
  let t1 ← Free t0 (b + BlockHeaderSize)
  some { t1 with usedSize := allocationBytes - getBlockSize t1.mem b }

/-! ### Concrete operation sequences used as test vectors -/

/-- Run `Allocate` and require a successful pointer result. -/
def allocOk (t : TLSFArena) (size : Int) : Option (TLSFArena × Int) := do
  match ← Allocate t size with
  | (t1, AllocResult.ok p) => some (t1, p)
  | _ => none

/-- `NewArena (32*1024)` followed by `Allocate 460` (the README example);
the returned payload pointer is `headBase + 16 = 32`. -/
def alloc32k : Option (TLSFArena × Int) := do
  let t ← NewArena (32 * 1024)
  allocOk t 460

/-- The README example continued with `Free` of the one allocation. -/
def freed32k : Option TLSFArena := do
  let (t, p) ← alloc32k
  Free t p

/-- `NewArena 1024`, two allocations of 16 bytes (blocks at addresses 16
and 48, payloads 32 and 64), then `Free` of the first pointer; returns
the state together with the still-live second pointer. -/
def smallSeq1 : Option (TLSFArena × Int) := do
  let t0 ← NewArena 1024
  let (t1, p1) ← allocOk t0 16
  let (t2, p2) ← allocOk t1 16
  let t3 ← Free t2 p1
  some (t3, p2)

/-- The same sequence with the second pointer freed as well: every
allocated pointer has been freed. -/
def smallSeq2 : Option TLSFArena := do
  let (t3, p2) ← smallSeq1
  Free t3 p2

/-- Follow `next` pointers from list head `p` for at most `fuel` steps,
looking for block `b`. -/
def listMem (m : Mem) : Nat → Int → Int → Bool
  | 0, _, _ => false
  | fuel + 1, p, b =>
      if p = 0 then false else if p = b then true else listMem m fuel (fbNext m p) b

/-- Whether block `b` is reachable from some free-list head
`matrix[fl][sl]` via `next` pointers. -/
def inAnyList (t : TLSFArena) (b : Int) : Bool :=
  (List.range 24).any fun fl => (List.range 32).any fun sl =>
    listMem t.mem 64 (t.matrix (fl : Int) (sl : Int)) b

/-- A state whose class `(0, 4)` free list holds exactly one block, at
address 100, used to exercise `insertBlock` on a non-empty list. -/
def listDemo : TLSFArena :=
  { flBitmap := 1
    slBitmap := fun i => if i = 0 then 16 else 0
    matrix := fun fl sl => if fl = 0 ∧ sl = 4 then 100 else 0
    mem := fun _ => 0
    usedSize := 0 }

/-- A completely empty allocator state (all bitmaps zero, no free lists,
zeroed memory). -/
def emptyArena : TLSFArena :=
  { flBitmap := 0, slBitmap := fun _ => 0, matrix := fun _ _ => 0
    mem := fun _ => 0, usedSize := 0 }

/-- The state built by `NewArena 1024` (the construction succeeds). -/
def arena1kState : TLSFArena := (NewArena 1024).get (by rfl)

/-! ### Helper lemmas: two's-complement arithmetic and memory reads -/

theorem toU64_of_nonneg {x : Int} (h0 : 0 ≤ x) (h1 : x < 2 ^ 64) : toU64 x = x.toNat := by
  unfold toU64 U64
  congr 1
  omega

theorem ofU64_of_lt {u : Nat} (h : u < 2 ^ 63) : ofU64 u = (u : Int) := by
  unfold ofU64
  rw [if_pos h]

theorem nat_and_hi (m : Nat) (hm : m < 2 ^ 64) : m &&& (2 ^ 64 - 16) = m - m % 16 := by
  have h1 : m - m % 16 = (m >>> 4) <<< 4 := by
    rw [Nat.shiftRight_eq_div_pow, Nat.shiftLeft_eq]
    omega
  have h2 : (2 : Nat) ^ 64 - 16 = (2 ^ 60 - 1) <<< 4 := by
    rw [Nat.shiftLeft_eq]
    norm_num
  apply Nat.eq_of_testBit_eq
  intro i
  rw [Nat.testBit_land, h1, h2, Nat.testBit_shiftLeft, Nat.testBit_shiftLeft,
      Nat.testBit_shiftRight, Nat.testBit_two_pow_sub_one]
  rcases lt_or_ge i 4 with hi | hi
  · simp [show ¬ (i ≥ 4) by omega]
  · rcases lt_or_ge i 64 with hi2 | hi2
    · simp [show i ≥ 4 from hi, show i - 4 < 60 by omega, show 4 + (i - 4) = i by omega]
    · have hz : m.testBit i = false :=
        Nat.testBit_lt_two_pow (lt_of_lt_of_le hm (Nat.pow_le_pow_right (by norm_num) hi2))
      simp [show 4 + (i - 4) = i by omega, hz]

theorem nat_low4_false {m : Nat} (hmod : m % 16 = 0) {i : Nat} (hi : i < 4) :
    m.testBit i = false := by
  have h := Nat.testBit_mod_two_pow m 4 i
  rw [show (2 : Nat) ^ 4 = 16 from by norm_num, hmod] at h
  simp [Nat.zero_testBit, show i < 4 from hi] at h
  exact h

theorem nat_or_one_and_mask (m : Nat) (hm : m < 2 ^ 32) (hmod : m % 16 = 0) :
    (m ||| 1) &&& 0xFFFFFFF8 = m := by
  have hmask : (0xFFFFFFF8 : Nat) = (2 ^ 29 - 1) <<< 3 := by
    rw [Nat.shiftLeft_eq]
    norm_num
  apply Nat.eq_of_testBit_eq
  intro i
  rw [Nat.testBit_land, Nat.testBit_lor, hmask, Nat.testBit_shiftLeft,
      Nat.testBit_two_pow_sub_one, show (1 : Nat) = 2 ^ 0 from rfl, Nat.testBit_two_pow]
  rcases lt_or_ge i 3 with hi | hi
  · simp [show ¬ (i ≥ 3) by omega, nat_low4_false hmod (show i < 4 by omega)]
  · rcases lt_or_ge i 4 with hi2 | hi2
    · simp [show i ≥ 3 from hi, show i - 3 < 29 by omega,
            nat_low4_false hmod (show i < 4 by omega), show ¬ (0 = i) by omega]
    · rcases lt_or_ge i 32 with hi3 | hi3
      · simp [show i ≥ 3 from hi, show i - 3 < 29 by omega, show ¬ (0 = i) by omega]
      · have hz : m.testBit i = false :=
          Nat.testBit_lt_two_pow (lt_of_lt_of_le hm (Nat.pow_le_pow_right (by norm_num) hi3))
        simp [hz, show ¬ (i - 3 < 29) by omega, show ¬ (0 = i) by omega]

theorem roundDown_eq {x : Int} (h0 : 0 ≤ x) (h1 : x < 2 ^ 63) :
    roundDown x = x - x % 16 := by
  unfold roundDown
  have hnot : i64not MemAlign = -16 := by decide
  rw [hnot]
  unfold i64and
  rw [toU64_of_nonneg h0 (by omega), show toU64 (-16) = 2 ^ 64 - 16 from by decide]
  rw [nat_and_hi x.toNat (by omega)]
  rw [ofU64_of_lt (by omega)]
  omega

theorem i64or_one (r : Int) (h0 : 0 ≤ r) (h1 : r < 2 ^ 32) :
    i64or r 1 = (r.toNat ||| 1 : Nat) := by
  unfold i64or
  rw [toU64_of_nonneg h0 (by omega), show toU64 1 = 1 from rfl]
  rw [ofU64_of_lt]
  have h2 : r.toNat ||| 1 < 2 ^ 32 := Nat.bitwise_lt (by omega) (by norm_num)
  omega

theorem i64and_or_one_mask (r : Int) (h0 : 0 ≤ r) (h1 : r < 2 ^ 32) (hmod : r % 16 = 0) :
    i64and (i64or r 1) BlockSize = r := by
  rw [i64or_one r h0 h1]
  unfold i64and
  have hb : (r.toNat ||| 1) < 2 ^ 32 := Nat.bitwise_lt (by omega) (by norm_num)
  rw [toU64_of_nonneg (by positivity) (by push_cast; omega),
      show toU64 BlockSize = 0xFFFFFFF8 from by decide]
  rw [Int.toNat_natCast]
  rw [nat_or_one_and_mask r.toNat (by omega) (by omega)]
  rw [ofU64_of_lt (by omega)]
  omega

theorem i64or_one_idem (r : Int) (h0 : 0 ≤ r) (h1 : r < 2 ^ 32) :
    i64or (i64or r 1) 1 = i64or r 1 := by
  rw [i64or_one r h0 h1]
  have hb : (r.toNat ||| 1) < 2 ^ 32 := Nat.bitwise_lt (by omega) (by norm_num)
  rw [i64or_one _ (by positivity) (by push_cast; omega)]
  rw [Int.toNat_natCast]
  rw [Nat.lor_assoc, show (1 : Nat) ||| 1 = 1 from rfl]

theorem writeMem_eq (m : Mem) (a v : Int) : writeMem m a v a = v := by
  simp [writeMem]

theorem writeMem_ne (m : Mem) (a v x : Int) (h : x ≠ a) : writeMem m a v x = m x := by
  simp [writeMem, h]

theorem newArena_used (n : Int) (h48 : 48 ≤ n) (hlt : n < 2 ^ 32) :
    ∀ st, NewArena n = some st → st.usedSize = n - roundDown (n - 2 * BlockHeaderSize) := by
  intro st h
  unfold NewArena at h
  simp only [headBase, BlockHeaderSize] at h
  norm_num at h
  simp only [BlockHeaderSize] at *
  norm_num at *
  rw [roundDown_eq (by omega) (by omega)] at h ⊢
  set r : Int := n - 32 - (n - 32) % 16 with hrdef
  have hr16 : 16 ≤ r := by omega
  have hr0 : 0 ≤ r := by omega
  have hrlt : r < 2 ^ 32 := by omega
  have hrmod : r % 16 = 0 := by omega
  simp only [writeMem_eq] at h
  rw [show i64or PreviousBlockUsed FreeBlock = 1 from by decide,
      show i64or PreviousBlockFree UsedBlock = 2 from by decide] at h
  rw [i64and_or_one_mask r hr0 hrlt hrmod] at h
  rw [writeMem_ne _ 24 (i64or r 1) (32 + r + 8) (by omega),
      writeMem_ne _ 24 r (32 + r + 8) (by omega)] at h
  rw [show i64or 0 2 = 2 from by decide] at h
  rw [show (32 : Int) + r + 8 = 40 + r from by ring] at h
  set M0 : Mem :=
    writeMem (writeMem (writeMem (writeMem (fun _ => 0) 24 r) 24 (i64or r 1)) (40 + r) 2)
      (32 + r) 16 with hM0
  have hM24 : M0 24 = i64or r 1 := by
    rw [hM0, writeMem_ne _ (32 + r) 16 24 (by omega), writeMem_ne _ (40 + r) 2 24 (by omega),
        writeMem_eq]
  unfold Free at h
  simp only [getBlockSize, hdrStatus, isFree, isPrevFree, hdrPrev, fbPrev, fbNext,
    FreeBlock, PreviousBlockFree, BlockHeaderSize] at h
  norm_num at h
  rw [hM24] at h
  rw [i64or_one_idem r hr0 hrlt] at h
  rw [show writeMem M0 24 (i64or r 1) 24 = i64or r 1 from writeMem_eq _ _ _] at h
  have hM2 : writeMem (writeMem (writeMem M0 24 (i64or r 1)) 32 0) 40 0 24 = i64or r 1 := by
    rw [writeMem_ne _ 40 0 24 (by omega), writeMem_ne _ 32 0 24 (by omega), writeMem_eq]
  rw [hM2] at h
  rw [i64and_or_one_mask r hr0 hrlt hrmod] at h
  rw [show (16 : Int) + r + 8 = 24 + r from by ring] at h
  have hM2r : writeMem (writeMem (writeMem M0 24 (i64or r 1)) 32 0) 40 0 (24 + r) = 0 := by
    by_cases hr : r = 16
    · rw [show (24 : Int) + r = 40 from by omega, writeMem_eq]
    · rw [writeMem_ne _ 40 0 (24 + r) (by omega), writeMem_ne _ 32 0 (24 + r) (by omega),
          writeMem_ne _ 24 (i64or r 1) (24 + r) (by omega),
          hM0, writeMem_ne _ (32 + r) 16 (24 + r) (by omega),
          writeMem_ne _ (40 + r) 2 (24 + r) (by omega),
          writeMem_ne _ 24 (i64or r 1) (24 + r) (by omega),
          writeMem_ne _ 24 r (24 + r) (by omega)]
  rw [hM2r] at h
  rw [show i64and 0 1 = 0 from by decide] at h
  rw [show i64and 0 ((1 <<< 1 : Nat) : Int) = 0 from by decide] at h
  norm_num at h
  rw [if_neg (show ¬ (0 : Int) = ((1 <<< 1 : Nat) : Int) from by decide)] at h
  cases hdl : determineLevels r with
  | none => rw [hdl] at h; simp at h
  | some fs =>
    obtain ⟨fl, sl⟩ := fs
    rw [hdl] at h
    simp only [Option.some_bind] at h
    unfold insertBlock getMatrix setMatrix getSlBitmap setSlBitmap at h
    split at h
    case isFalse => simp at h
    case isTrue hcond =>
      norm_num at h
      rw [if_pos (⟨hcond.1, hcond.2.1⟩ : 0 ≤ fl ∧ fl < RealFLI)] at h
      simp only [Option.some_bind] at h
      rw [if_pos (⟨hcond.1, hcond.2.1⟩ : 0 ≤ fl ∧ fl < RealFLI)] at h
      simp only [Option.some_bind] at h
      rw [Option.some.injEq] at h
      subst h
      simp only []
      rw [writeMem_ne _ 32 0 24 (by omega), writeMem_ne _ 32 0 24 (by omega),
          writeMem_ne _ 40 0 24 (by omega), writeMem_ne _ 32 0 24 (by omega),
          writeMem_eq, i64and_or_one_mask r hr0 hrlt hrmod]

/-! ### Claim theorems -/

/-- **C1.** The claimed invariant says that after any sequence of
allocate/free operations every free block appears in exactly one free
list.  It fails on the code: after `NewArena 1024`, two 16-byte
allocations (blocks at 16 and 48) and both frees, the block at address 16
has its FREE flag set but is reachable from no list `matrix[fl][sl]`
(because `insertBlock` stores the old head in `b.prev` instead of
`b.next`, and the broken coalescing in `Free` never merged it). -/
theorem C1_free_block_reachable_from_no_list :
    (smallSeq2.map fun t => (isFree t.mem 16, inAnyList t 16, inAnyList t 48)) =
      some (true, false, true) := by
  rfl

/-- **C2.** The claimed boundary-tag invariant fails: after
`NewArena (32*1024); p := Allocate 460; Free p` the free block at 16
(size 464) has the block at `496 = 16 + 16 + 464` as physical successor,
but the successor's `prevHeader` is `0` — the split in `Allocate` never
wrote it — instead of 16, and the successor's PREV_FREE flag is `false`
although the predecessor's FREE flag is `true` (`Free` never updates the
successor's flags). -/
theorem C2_boundary_tag_invariant_fails :
    (freed32k.map fun t =>
        (getBlockSize t.mem 16, isFree t.mem 16, hdrPrev t.mem 496, isPrevFree t.mem 496,
         isFree t.mem 496)) =
      some (464, true, 0, false, true) := by
  rfl

/-- **C3.** The claim says `Free` examines the header at
`block base + BlockHeaderSize + size` and merges exactly when that
header's FREE flag is set.  In the code the header is read at
`block base + size` (the last 16 bytes of the freed block's own payload):
after `NewArena (32*1024); p := Allocate 460; Free p`, the true successor
at `16 + 16 + 464 = 496` is free, yet no merge happened — the freed
block's size is still 464 — because the status word the code actually
read, at `16 + 464 + 8`, is zero. -/
theorem C3_forward_coalesce_reads_wrong_address :
    (freed32k.map fun t =>
        (isFree t.mem (16 + BlockHeaderSize + 464), hdrStatus t.mem (16 + 464),
         getBlockSize t.mem 16, isFree t.mem 16)) =
      some (true, 0, 464, true) := by
  rfl

/-- **C4.** The claim says `insertBlock b fl sl` sets `b.next` to the
previous head.  On a state whose class `(0, 4)` list head is block 100,
inserting block 200 leaves `b.next = 0` (untouched) and instead stores
the old head in `b.prev`; the head, the old head's `prev` pointer and
both bitmap bits are updated as claimed.  The old head is therefore no
longer reachable from the new head via `next`. -/
theorem C4_insertBlock_sets_prev_not_next :
    ((insertBlock listDemo 200 0 4).map fun t =>
        (t.matrix 0 4, fbNext t.mem 200, fbPrev t.mem 200, fbPrev t.mem 100,
         t.slBitmap 0, t.flBitmap)) =
      some (200, 0, 100, 200, 16, 1) := by
  rfl

/-- **C5.** The claim says that when the physical predecessor of a freed
block is free, `Free` extracts the predecessor and absorbs the freed
block into it.  After `NewArena 1024; p1 := Allocate 16; p2 := Allocate 16;
Free p1`, the block at 16 (predecessor of the block at `48 = 16+16+16`,
whose payload is `p2 = 64`) is free with size 16; yet after `Free p2`
the predecessor still has size 16 (nothing was absorbed) and the block
inserted into `matrix[0][4]` is the freed block 48 itself, not the
predecessor: the backward merge never fires because the condition is
read from a status word inside the freed block's payload. -/
theorem C5_backward_merge_never_fires :
    (smallSeq1.map fun tp => (tp.2, isFree tp.1.mem 16, getBlockSize tp.1.mem 16)) =
        some (64, true, 16)
    ∧ (smallSeq2.map fun t =>
        (getBlockSize t.mem 16, getBlockSize t.mem 48, t.matrix 0 4)) =
        some (16, 16, 48) := by
  exact ⟨rfl, rfl⟩

/-- **C6.** The claim says that after all allocated pointers are freed
the state is observationally equal to the post-construction state (one
free block, one bit set in each bitmap).  After `NewArena 1024` the
first-level bitmap is `2^3 = 8` (single class `(3, 30)`); after two
16-byte allocations and both frees it is `9` — two bits set, three
separate free blocks — since the broken coalescing never re-merges
neighbours. -/
theorem C6_round_trip_not_restored :
    ((NewArena 1024).map fun t => (t.flBitmap, t.slBitmap 3, t.matrix 3 30)) =
        some (8, 2 ^ 30, 16)
    ∧ (smallSeq2.map fun t => (t.flBitmap, t.slBitmap 0, t.slBitmap 3)) =
        some (9, 16, 2 ^ 26) := by
  exact ⟨rfl, rfl⟩

/-- **C9.** For oversized requests the allocator faults instead of
returning `ErrBlockNotFound`: in any state, a request of `2^31` reaches
`findSuitableBlock` with `fl = 25 ≥ RealFLI = 24` and panics on the
out-of-range `slBitmap` index, and a request of `2^32` (a multiple of
`2^32`, whose low 32 bits are zero, so `msb = -1`) panics on the negative
shift amount `msb - MaxLog2SLI - ... < 0` inside `selectLevelsAndSize`.
`none` is the modelled panic, distinct from `errBlockNotFound`. -/
theorem C9_oversized_requests_fault (t : TLSFArena) :
    Allocate t (2 ^ 31) = none ∧ Allocate t (2 ^ 32) = none := by
  exact ⟨rfl, rfl⟩

/-- Witness for C9: the faults happen in particular in the empty state. -/
theorem C9_witness :
    Allocate emptyArena (2 ^ 31) = none ∧ Allocate emptyArena (2 ^ 32) = none :=
  C9_oversized_requests_fault emptyArena

/-- **C7.** When `Allocate` returns `ErrBlockNotFound` the allocator
state is returned unchanged: the error exit happens before any mutation
of the bitmaps, the matrix, the memory or `usedSize`. -/
theorem C7_failed_allocation_leaves_state_unchanged (t : TLSFArena) (size : Int)
    (t' : TLSFArena) (h : Allocate t size = some (t', AllocResult.errBlockNotFound)) :
    t' = t := by
  unfold Allocate at h
  simp only [] at h
  cases hsel : selectLevelsAndSize (if size < MinBlockSize then MinBlockSize else roundUp size) with
  | none => rw [hsel] at h; simp at h
  | some v =>
    obtain ⟨sz, fl, sl⟩ := v
    rw [hsel] at h
    simp only [Option.bind_eq_bind, Option.some_bind] at h
    cases hf : findSuitableBlock t fl sl with
    | none => rw [hf] at h; simp at h
    | some w =>
      obtain ⟨b, fl2, sl2⟩ := w
      rw [hf] at h
      simp only [Option.some_bind] at h
      by_cases hb : b = 0
      · rw [if_pos hb] at h
        simp only [Option.some.injEq, Prod.mk.injEq] at h
        exact h.1.symm
      · rw [if_neg hb] at h
        cases he : extractBlockHdr t b fl2 sl2 with
        | none => rw [he] at h; simp at h
        | some t1 =>
          rw [he] at h
          simp only [Option.some_bind] at h
          split at h
          · cases hd : determineLevels (getBlockSize t1.mem b - sz - BlockHeaderSize) with
            | none => rw [hd] at h; simp at h
            | some q =>
              obtain ⟨fl3, sl3⟩ := q
              rw [hd] at h
              simp only [Option.some_bind] at h
              cases hi : insertBlock _ _ fl3 sl3 with
              | none => rw [hi] at h; simp at h
              | some t3 => rw [hi] at h; simp at h
          · simp at h

/-- Witness for C7: in the arena built by `NewArena 1024` (one free block
of 992 bytes) a request of 4096 bytes fails with `ErrBlockNotFound` and
returns the state unchanged. -/
theorem C7_witness :
    Allocate arena1kState 4096 = some (arena1kState, AllocResult.errBlockNotFound) ∧
      arena1kState = arena1kState :=
  ⟨rfl, C7_failed_allocation_leaves_state_unchanged arena1kState 4096 arena1kState rfl⟩

/-- **C10.** Every request smaller than `MinBlockSize = 16` — including
zero and negative sizes — is clamped to 16 bytes before anything else
happens, so `Allocate` behaves exactly as `Allocate MinBlockSize`. -/
theorem C10_small_requests_behave_as_sixteen (t : TLSFArena) (size : Int)
    (h : size < MinBlockSize) : Allocate t size = Allocate t MinBlockSize := by
  unfold Allocate
  rw [if_pos h, if_neg (show ¬ MinBlockSize < MinBlockSize by decide),
      show roundUp MinBlockSize = MinBlockSize from by decide]

/-- Witness for C10: a negative request of `-5` bytes is accepted and
treated as a 16-byte request. -/
theorem C10_witness :
    (-5 : Int) < MinBlockSize ∧
      Allocate emptyArena (-5) = Allocate emptyArena MinBlockSize :=
  ⟨by decide, C10_small_requests_behave_as_sixteen emptyArena (-5) (by decide)⟩

/-- **C8.** On the constructor's stated input domain
(`n ≥ 2·BlockHeaderSize + MinBlockSize = 48`, `n` a `uint32`), whenever
`NewArena n` completes, `usedSize` equals `n - roundDown (n - 2·16)`;
and in the README scenario `NewArena (32·1024)` followed by
`Allocate 460` yields `usedSize = 512`. -/
theorem C8_used_size_formula :
    (∀ (n : Int) (st : TLSFArena), 48 ≤ n → n < 2 ^ 32 → NewArena n = some st →
        st.usedSize = n - roundDown (n - 2 * BlockHeaderSize))
    ∧ (alloc32k.map fun tp => tp.1.usedSize) = some 512 :=
  ⟨fun n st h48 hlt h => newArena_used n h48 hlt st h, rfl⟩

/-- Witness for C8: `NewArena 1024` succeeds and its `usedSize` is
`1024 - roundDown (1024 - 32) = 32`. -/
theorem C8_witness :
    (48 : Int) ≤ 1024 ∧ (1024 : Int) < 2 ^ 32 ∧ NewArena 1024 = some arena1kState ∧
      arena1kState.usedSize = 1024 - roundDown (1024 - 2 * BlockHeaderSize) :=
  ⟨by decide, by decide, (Option.some_get _).symm,
   C8_used_size_formula.1 1024 arena1kState (by decide) (by decide) (Option.some_get _).symm⟩

end TlsfGo
